import Mathlib

set_option maxHeartbeats 1000000

/-
Verification of the STAMPS bulk generator core: the record data model, the
two rule-validator variants found in the source, the XML escaping routine,
and the size-aware batch XML serializer.  Machine integers do not occur in
the source (all sizes are small non-negative counts), so sizes are `Nat`.
JavaScript strings are modelled by `String`; the byte size that
`new Blob([s]).size` reports is the UTF-8 byte count, modelled by
`utf8Bytes` below, while JavaScript's `.length` (UTF-16 units, equal to the
character count for the ASCII constants involved) is `String.length`.
-/

namespace Stamps

/-- JavaScript runtime values that can populate a mapped record field. -/
inductive JSVal where
  | undefined
  | null
  | str (s : String)
  | num (n : Int)
deriving DecidableEq

/-- JavaScript truthiness of a field value: `undefined`, `null`, the empty
string and the number 0 are falsy. -/
def JSVal.truthy : JSVal → Bool
  | .undefined => false
  | .null => false
  | .str s => s != ""
  | .num n => n != 0

/-- JavaScript string conversion, as performed by template interpolation and
by `String(v)`. -/
def jsToString : JSVal → String
  | .undefined => "undefined"
  | .null => "null"
  | .str s => s
  | .num n => toString n

/-- JavaScript `a || b`. -/
def jsOr (a b : JSVal) : JSVal := if a.truthy then a else b

/-- ASCII whitespace skipped by `parseFloat` and stripped by `trim`. -/
def jsWhitespace (c : Char) : Bool := c == ' ' || c == '\t' || c == '\n' || c == '\r'

/-- JavaScript `String.prototype.trim`: strip leading and trailing
whitespace (ASCII whitespace model). -/
def jsTrim (s : String) : String :=
  String.mk (((s.data.dropWhile jsWhitespace).reverse.dropWhile jsWhitespace).reverse)


/-- One party sub-record (`transferor` / `transferee`).  Every field is
optional in the source objects, so every field defaults to `undefined`.
Both the `passportNo`/`passportCountry` spelling (used by the first
validator variant) and the `pasportNo`/`pasportCountry` spelling (used by
the parser, the second validator variant and the XML generator) exist as
distinct keys, exactly as in the dynamic JS objects. -/
structure Party where
  type : JSVal := .undefined
  name : JSVal := .undefined
  nationality : JSVal := .undefined
  icNo : JSVal := .undefined
  rocNo : JSVal := .undefined
  busType : JSVal := .undefined
  passportNo : JSVal := .undefined
  passportCountry : JSVal := .undefined
  pasportNo : JSVal := .undefined
  pasportCountry : JSVal := .undefined
  incomeTaxNo : JSVal := .undefined
  incomeTaxBranch : JSVal := .undefined
  street1 : JSVal := .undefined
  street2 : JSVal := .undefined
  street3 : JSVal := .undefined
  postcode : JSVal := .undefined
  city : JSVal := .undefined
  state : JSVal := .undefined
  country : JSVal := .undefined
  telNo : JSVal := .undefined
  email : JSVal := .undefined
deriving DecidableEq

/-- A normalized (mapped) record.  `rowNumber` models `_rowNumber`; the
party sub-objects are `Option` because `if (record.transferor)` tests their
presence. -/
structure Record where
  rowNumber : Nat := 0
  refNo : JSVal := .undefined
  instrumentDate : JSVal := .undefined
  instrumentDateReceive : JSVal := .undefined
  principal : JSVal := .undefined
  subsidiary : JSVal := .undefined
  typeOfInstrument : JSVal := .undefined
  typeOfInstrumentOthers : JSVal := .undefined
  consideration : JSVal := .undefined
  duration : JSVal := .undefined
  durationDesc : JSVal := .undefined
  colLand : JSVal := .undefined
  colLandDesc : JSVal := .undefined
  colShare : JSVal := .undefined
  colDeposit : JSVal := .undefined
  colOthers : JSVal := .undefined
  colOthersDesc : JSVal := .undefined
  noOfCopy : JSVal := .undefined
  exemption : JSVal := .undefined
  exemptionOthers : JSVal := .undefined
  remession : JSVal := .undefined
  remessionOthers : JSVal := .undefined
  attachment : JSVal := .undefined
  transferor : Option Party := none
  transferee : Option Party := none
deriving DecidableEq

/-- Optional-chaining access `record.transferor?.field`. -/
def partyField (p : Option Party) (f : Party → JSVal) : JSVal :=
  match p with
  | some q => f q
  | none => .undefined

/-! ## XML text escaping (`escapeXml`, generator module lines 738-747) -/

/-- The apostrophe character (U+0027). -/
def aposChar : Char := Char.ofNat 39

/-- JavaScript `String.prototype.replace` with a global single-character
pattern: every occurrence of `pattern` is replaced by `replacement`. -/
def replaceAllChar (pattern : Char) (replacement : List Char) : List Char → List Char
  | [] => []
  | c :: cs => (if c = pattern then replacement else [c]) ++ replaceAllChar pattern replacement cs

/-- The five sequential replacements of `escapeXml`, in source order
(`&`, `<`, `>`, `"`, `'`). -/
def escapeList (cs : List Char) : List Char :=
  replaceAllChar aposChar (("&apos;").data)
    (replaceAllChar ('"') (("&quot;").data)
      (replaceAllChar ('>') (("&gt;").data)
        (replaceAllChar ('<') (("&lt;").data)
          (replaceAllChar ('&') (("&amp;").data) cs))))

/-- Escape special XML characters; `null`/`undefined` render as the empty
string (source guard `if (str === null || str === undefined) return ''`). -/
def escapeXml (value : JSVal) : String :=
  match value with
  | .undefined => ""
  | .null => ""
  | v => String.mk (escapeList (jsToString v).data)

/-- Standard XML unescaping of the five predefined entities.  Modelled from
the spec: "escaping followed by standard XML unescaping of any field value
recovers the original string" — the inverse operation is not part of this
repository, so it is defined here from the standard entity table. -/
def unescapeChars : List Char → List Char
  | [] => []
  | c :: r =>
    if c = '&' then
      match r with
      | 'a' :: 'm' :: 'p' :: ';' :: r2 => '&' :: unescapeChars r2
      | 'l' :: 't' :: ';' :: r2 => '<' :: unescapeChars r2
      | 'g' :: 't' :: ';' :: r2 => '>' :: unescapeChars r2
      | 'q' :: 'u' :: 'o' :: 't' :: ';' :: r2 => '"' :: unescapeChars r2
      | 'a' :: 'p' :: 'o' :: 's' :: ';' :: r2 => aposChar :: unescapeChars r2
      | r2 => '&' :: unescapeChars r2
    else c :: unescapeChars r

/-- Standard XML unescaping on strings. -/
def unescapeXml (s : String) : String := String.mk (unescapeChars s.data)

/-! ## Batch serializer (generator module lines 553-731) -/

/-- Maximum batch size in bytes (29MB for safety buffer). -/
def MAX_BATCH_SIZE : Nat := 29 * 1024 * 1024

/-- XML envelope header constant. -/
def XML_HEADER : String :=
  "<?xml version=\"1.0\" encoding=\"UTF-8\"?>\n<bulkstamping>\n    <applicationType>43</applicationType>"

/-- XML envelope footer constant. -/
def XML_FOOTER : String := "\n</bulkstamping>"

/-- UTF-8 byte count of a string, the value `new Blob([s]).size` reports. -/
def utf8Bytes (s : String) : Nat := (s.data.map Char.utf8Size).sum

/-- The running batch accumulator of `generateXml`. -/
structure RunningBatch where
  instruments : List String
  size : Nat
  recordCount : Nat
deriving DecidableEq

/-- One finalized output document. -/
structure OutputBatch where
  filename : String
  content : String
  size : Nat
  recordCount : Nat
deriving DecidableEq

/-- A fresh running batch: its size starts at the envelope's `.length`
(JavaScript character count, not byte count). -/
def emptyRunningBatch : RunningBatch :=
  { instruments := []
  , size := XML_HEADER.length + XML_FOOTER.length
  , recordCount := 0 }

/-- Output filename for the batch finalized in position `batchNumber`
(1-based). -/
def batchFilename (batchNumber : Nat) : String :=
  if batchNumber = 1 then "Output.xml"
  else "Output_Batch_" ++ toString batchNumber ++ ".xml"

/-- Finalize a batch into XML content (source `finalizeBatch`): the content
is envelope header, the joined instrument fragments, envelope footer, and
the reported size is recomputed as the byte size of that content. -/
def finalizeBatch (batch : RunningBatch) (batchNumber : Nat) : OutputBatch :=
  let content := XML_HEADER ++ String.join batch.instruments ++ XML_FOOTER
  { filename := batchFilename batchNumber
  , content := content
  , size := utf8Bytes content
  , recordCount := batch.recordCount }

/-- Escaped rendering of one field value, `escapeXml(record.x || '')`. -/
def escField (v : JSVal) : String := escapeXml (jsOr v (JSVal.str ("")))

/-- The party sub-element of the instrument template; the transferor and
transferee blocks of the source template are identical up to the tag name. -/
def partyXml (tag : String) (p : Option Party) : String :=
  "\n        <" ++ tag ++ ">"
  ++ "\n            <type>" ++ escField (partyField p Party.type) ++ "</type>"
  ++ "\n            <name>" ++ escField (partyField p Party.name) ++ "</name>"
  ++ "\n            <nationality>" ++ escField (partyField p Party.nationality) ++ "</nationality>"
  ++ "\n            <icNo>" ++ escField (partyField p Party.icNo) ++ "</icNo>"
  ++ "\n            <pasportNo>" ++ escField (partyField p Party.pasportNo) ++ "</pasportNo>"
  ++ "\n            <pasportCountry>" ++ escField (partyField p Party.pasportCountry) ++ "</pasportCountry>"
  ++ "\n            <rocNo>" ++ escField (partyField p Party.rocNo) ++ "</rocNo>"
  ++ "\n            <busType>" ++ escField (partyField p Party.busType) ++ "</busType>"
  ++ "\n            <incomeTaxNo>" ++ escField (partyField p Party.incomeTaxNo) ++ "</incomeTaxNo>"
  ++ "\n            <incomeTaxBranch>" ++ escField (partyField p Party.incomeTaxBranch) ++ "</incomeTaxBranch>"
  ++ "\n            <street1>" ++ escField (partyField p Party.street1) ++ "</street1>"
  ++ "\n            <street2>" ++ escField (partyField p Party.street2) ++ "</street2>"
  ++ "\n            <street3>" ++ escField (partyField p Party.street3) ++ "</street3>"
  ++ "\n            <postcode>" ++ escField (partyField p Party.postcode) ++ "</postcode>"
  ++ "\n            <city>" ++ escField (partyField p Party.city) ++ "</city>"
  ++ "\n            <state>" ++ escField (partyField p Party.state) ++ "</state>"
  ++ "\n            <country>" ++ escField (partyField p Party.country) ++ "</country>"
  ++ "\n            <telNo>" ++ escField (partyField p Party.telNo) ++ "</telNo>"
  ++ "\n            <email>" ++ escField (partyField p Party.email) ++ "</email>"
  ++ "\n        </" ++ tag ++ ">"

/-- Attachment payload lookup (source lines 651-660): if an attachment is
named, fetch its base64 data by trimmed filename; a thrown error or falsy
result degrades to the empty string. `getAttachmentBase64` returning `none`
models a throw. -/
def attachmentBase64Of (record : Record) (getAttachmentBase64 : String → Option String) : String :=
  let attachmentName := jsOr record.attachment (JSVal.str (""))
  if attachmentName.truthy then
    match getAttachmentBase64 (jsTrim (jsToString attachmentName)) with
    | some s => s
    | none => ""
  else ""

/-- The fixed instrument template with the two attachment values filled in. -/
def instrumentTemplate (record : Record) (attachmentName : JSVal) (attachmentBase64 : String) : String :=
  "\n    <instrument>"
  ++ "\n        <refNo>" ++ escField record.refNo ++ "</refNo>"
  ++ "\n        <instrumentDate>" ++ escField record.instrumentDate ++ "</instrumentDate>"
  ++ "\n        <instrumentDateReceive>" ++ escField record.instrumentDateReceive ++ "</instrumentDateReceive>"
  ++ "\n        <principal>" ++ escField record.principal ++ "</principal>"
  ++ "\n        <subsidiary>" ++ escField record.subsidiary ++ "</subsidiary>"
  ++ "\n        <typeOfInstrument>" ++ escField record.typeOfInstrument ++ "</typeOfInstrument>"
  ++ "\n        <typeOfInstrumentOthers>" ++ escField record.typeOfInstrumentOthers ++ "</typeOfInstrumentOthers>"
  ++ partyXml ("transferor") record.transferor
  ++ partyXml ("transferee") record.transferee
  ++ "\n        <consideration>" ++ escField record.consideration ++ "</consideration>"
  ++ "\n        <duration>" ++ escField record.duration ++ "</duration>"
  ++ "\n        <durationDesc>" ++ escField record.durationDesc ++ "</durationDesc>"
  ++ "\n        <colLand>" ++ escField record.colLand ++ "</colLand>"
  ++ "\n        <colLandDesc>" ++ escField record.colLandDesc ++ "</colLandDesc>"
  ++ "\n        <colShare>" ++ escField record.colShare ++ "</colShare>"
  ++ "\n        <colDeposit>" ++ escField record.colDeposit ++ "</colDeposit>"
  ++ "\n        <colOthers>" ++ escField record.colOthers ++ "</colOthers>"
  ++ "\n        <colOthersDesc>" ++ escField record.colOthersDesc ++ "</colOthersDesc>"
  ++ "\n        <noOfCopy>" ++ escField record.noOfCopy ++ "</noOfCopy>"
  ++ "\n        <exemption>" ++ escField record.exemption ++ "</exemption>"
  ++ "\n        <exemptionOthers>" ++ escField record.exemptionOthers ++ "</exemptionOthers>"
  ++ "\n        <remession>" ++ escField record.remession ++ "</remession>"
  ++ "\n        <remessionOthers>" ++ escField record.remessionOthers ++ "</remessionOthers>"
  ++ "\n        <attachment name=\"" ++ escapeXml attachmentName ++ "\">" ++ attachmentBase64 ++ "</attachment>"
  ++ "\n    </instrument>"

/-- Generate XML for a single instrument (source `generateInstrumentXml`). -/
def generateInstrumentXml (record : Record) (getAttachmentBase64 : String → Option String) : String :=
  let attachmentName := jsOr record.attachment (JSVal.str (""))
  instrumentTemplate record attachmentName (attachmentBase64Of record getAttachmentBase64)

/-- The record loop of `generateXml`: split the running batch when appending
the next fragment would exceed the maximum size and the batch already holds
a record, then append the fragment unconditionally. -/
def generateXmlLoop (f : Record → String) :
    List Record → RunningBatch → List OutputBatch → List OutputBatch
  | [], currentBatch, batches =>
      if 0 < currentBatch.instruments.length then
        batches ++ [finalizeBatch currentBatch (batches.length + 1)]
      else batches
  | record :: rest, currentBatch, batches =>
      let instrumentXml := f record
      let instrumentSize := utf8Bytes instrumentXml
      let step :=
        if MAX_BATCH_SIZE < currentBatch.size + instrumentSize ∧ 0 < currentBatch.instruments.length then
          (emptyRunningBatch, batches ++ [finalizeBatch currentBatch (batches.length + 1)])
        else (currentBatch, batches)
      generateXmlLoop f rest
        { instruments := step.1.instruments ++ [instrumentXml]
        , size := step.1.size + instrumentSize
        , recordCount := step.1.recordCount + 1 }
        step.2

/-- Generate the ordered list of XML batches (source `generateXml`; the
progress callback performs no state change and is omitted). -/
def generateXml (mappedData : List Record) (getAttachmentBase64 : String → Option String) : List OutputBatch :=
  generateXmlLoop (fun record => generateInstrumentXml record getAttachmentBase64)
    mappedData emptyRunningBatch []

/-- A finalized batch as a function of its instrument-fragment chunk and
1-based finalize position (what `finalizeBatch` produces when the running
batch's `recordCount` equals its number of fragments). -/
def finalizeChunk (instruments : List String) (batchNumber : Nat) : OutputBatch :=
  { filename := batchFilename batchNumber
  , content := XML_HEADER ++ String.join instruments ++ XML_FOOTER
  , size := utf8Bytes (XML_HEADER ++ String.join instruments ++ XML_FOOTER)
  , recordCount := instruments.length }

/-- Finalize a list of fragment chunks with consecutive batch numbers. -/
def finalizeChunks (chunks : List (List String)) (start : Nat) : List OutputBatch :=
  match chunks with
  | [] => []
  | c :: cs => finalizeChunk c start :: finalizeChunks cs (start + 1)

/-! ## Validation issues and shared per-record checks -/

/-- One structured validation issue. -/
structure ValidationIssue where
  rowNumber : Nat
  fieldName : String
  errorType : String
  message : String
deriving DecidableEq

/-- The aggregated validation report returned by `validateAll`. -/
structure ValidationReport where
  valid : Bool
  validCount : Nat
  errorCount : Nat
  warningCount : Nat
  errors : List ValidationIssue
  warnings : List ValidationIssue
deriving DecidableEq

/-- Date format regex `^\d{2}\/\d{2}\/\d{4}$` applied by `.test` (which
first converts its argument to a string). -/
def dateRegexTest (s : String) : Bool :=
  match s.data with
  | [d1, d2, s1, d3, d4, s2, d5, d6, d7, d8] =>
      d1.isDigit && d2.isDigit && s1 == '/' && d3.isDigit && d4.isDigit && s2 == '/'
        && d5.isDigit && d6.isDigit && d7.isDigit && d8.isDigit
  | _ => false

/-- Whether a character sequence starts with a decimal mantissa
(a digit, or a dot followed by a digit). -/
def startsDecimal : List Char → Bool
  | [] => false
  | c :: cs =>
      if c.isDigit then true
      else if c == '.' then
        match cs with
        | d :: _ => d.isDigit
        | [] => false
      else false

/-- Whether a character sequence starts with the literal `Infinity`. -/
def startsInfinity : List Char → Bool
  | 'I' :: 'n' :: 'f' :: 'i' :: 'n' :: 'i' :: 't' :: 'y' :: _ => true
  | _ => false

/-- Whether `isNaN(parseFloat(value))` holds: after string conversion,
leading whitespace and an optional sign, no `Infinity` and no decimal
mantissa can be read. -/
def parseFloatIsNaN (value : JSVal) : Bool :=
  match value with
  | .num _ => false
  | v =>
      let cs := (jsToString v).data.dropWhile jsWhitespace
      let cs2 := match cs with
        | c :: rest => if c == '+' || c == '-' then rest else c :: rest
        | [] => []
      !(startsInfinity cs2 || startsDecimal cs2)

/-- The attachment store argument: `None` models a missing map, otherwise
the membership test of `attachmentFiles.has`. -/
abbrev AttachmentFiles := Option (String → Bool)

/-- Guarded store lookup `attachmentFiles && attachmentFiles.has(filename)`. -/
def attHas (attachmentFiles : AttachmentFiles) (filename : String) : Bool :=
  match attachmentFiles with
  | some has => has filename
  | none => false

/-- Mandatory value test of the validators:
`value === undefined || value === null || value === ''`. -/
def isMissingValue (v : JSVal) : Bool :=
  v == .undefined || v == .null || v == .str ("")

/-- Date-format check shared verbatim by both validator variants (emitted as
row errors). -/
def dateIssues (displayName : String → String) (record : Record) (rowNumber : Nat) :
    List ValidationIssue :=
  ([(("instrumentDate" : String), record.instrumentDate),
    (("instrumentDateReceive" : String), record.instrumentDateReceive)]).filterMap
    (fun p =>
      if p.2.truthy ∧ ¬ dateRegexTest (jsToString p.2) then
        some { rowNumber := rowNumber
             , fieldName := p.1
             , errorType := "INVALID_DATE"
             , message := "Invalid date format for " ++ displayName p.1
                 ++ ". Expected DD/MM/YYYY, got: " ++ jsToString p.2 }
      else none)

/-- Numeric-format check shared verbatim by both validator variants (emitted
as row warnings). -/
def numericIssues (displayName : String → String) (record : Record) (rowNumber : Nat) :
    List ValidationIssue :=
  ([(("principal" : String), record.principal),
    (("subsidiary" : String), record.subsidiary),
    (("typeOfInstrument" : String), record.typeOfInstrument),
    (("consideration" : String), record.consideration),
    (("noOfCopy" : String), record.noOfCopy)]).filterMap
    (fun p =>
      if p.2 ≠ .undefined ∧ p.2 ≠ .str ("") ∧ parseFloatIsNaN p.2 then
        some { rowNumber := rowNumber
             , fieldName := p.1
             , errorType := "INVALID_NUMBER"
             , message := "Non-numeric value for " ++ displayName p.1 ++ ": " ++ jsToString p.2 }
      else none)

/-- Attachment-presence check shared verbatim by both validator variants:
first component are the row errors, second the row warnings it produces. -/
def attachmentIssues (attachmentFiles : AttachmentFiles) (record : Record) (rowNumber : Nat) :
    List ValidationIssue × List ValidationIssue :=
  if record.attachment.truthy then
    let filename := jsTrim (jsToString record.attachment)
    if attHas attachmentFiles filename then ([], [])
    else
      ([{ rowNumber := rowNumber
        , fieldName := "attachment"
        , errorType := "MISSING_FILE"
        , message := "Attachment file not uploaded: " ++ filename }], [])
  else
    ([], [{ rowNumber := rowNumber
          , fieldName := "attachment"
          , errorType := "MISSING_ATTACHMENT"
          , message := "No attachment specified for this record" }])

/-! ## Validator variant 1 (validator module lines 1-333): the strict
variant with the full mandatory-field list and hard conditional party
errors. -/

/-- Mandatory field list of validator variant 1. -/
def MANDATORY_FIELDS_V1 : List String :=
  ["refNo", "instrumentDate", "principal", "typeOfInstrumentOthers",
   "transferor.type", "transferor.name",
   "transferor.street1", "transferor.street2", "transferor.postcode",
   "transferor.city", "transferor.state", "transferor.country", "transferor.telNo",
   "transferee.type", "transferee.name",
   "transferee.street1", "transferee.street2", "transferee.postcode",
   "transferee.city", "transferee.state", "transferee.country", "transferee.telNo"]

/-- Mandatory field list of validator variant 2 (validator module lines
334-552). -/
def MANDATORY_FIELDS_V2 : List String :=
  ["refNo", "instrumentDate", "instrumentDateReceive", "principal", "typeOfInstrument",
   "transferor.type", "transferor.name", "transferee.type", "transferee.name",
   "consideration", "noOfCopy"]

/-- Dot-path resolution `getNestedValue` for the paths the validators use;
an unknown path resolves to `undefined`, and a missing party object makes
its sub-paths resolve to `undefined`. -/
def getNestedValue (record : Record) (path : String) : JSVal :=
  match path with
  | "refNo" => record.refNo
  | "instrumentDate" => record.instrumentDate
  | "instrumentDateReceive" => record.instrumentDateReceive
  | "principal" => record.principal
  | "typeOfInstrument" => record.typeOfInstrument
  | "typeOfInstrumentOthers" => record.typeOfInstrumentOthers
  | "consideration" => record.consideration
  | "noOfCopy" => record.noOfCopy
  | "transferor.type" => partyField record.transferor Party.type
  | "transferor.name" => partyField record.transferor Party.name
  | "transferor.street1" => partyField record.transferor Party.street1
  | "transferor.street2" => partyField record.transferor Party.street2
  | "transferor.postcode" => partyField record.transferor Party.postcode
  | "transferor.city" => partyField record.transferor Party.city
  | "transferor.state" => partyField record.transferor Party.state
  | "transferor.country" => partyField record.transferor Party.country
  | "transferor.telNo" => partyField record.transferor Party.telNo
  | "transferee.type" => partyField record.transferee Party.type
  | "transferee.name" => partyField record.transferee Party.name
  | "transferee.street1" => partyField record.transferee Party.street1
  | "transferee.street2" => partyField record.transferee Party.street2
  | "transferee.postcode" => partyField record.transferee Party.postcode
  | "transferee.city" => partyField record.transferee Party.city
  | "transferee.state" => partyField record.transferee Party.state
  | "transferee.country" => partyField record.transferee Party.country
  | "transferee.telNo" => partyField record.transferee Party.telNo
  | _ => .undefined

/-- Display names of validator variant 1. -/
def getFieldDisplayName_v1 (fieldPath : String) : String :=
  match fieldPath with
  | "refNo" => "Reference Number"
  | "instrumentDate" => "Date Signed"
  | "instrumentDateReceive" => "Date Received"
  | "principal" => "Principal/Subsidiary"
  | "typeOfInstrumentOthers" => "Agreement Name"
  | "typeOfInstrument" => "Instrument Type"
  | "transferor.type" => "Transferor Type"
  | "transferor.name" => "Transferor Name"
  | "transferor.icNo" => "Transferor IC"
  | "transferor.rocNo" => "Transferor ROC"
  | "transferor.busType" => "Transferor Business Type"
  | "transferor.nationality" => "Transferor Nationality"
  | "transferor.passportNo" => "Transferor Passport"
  | "transferor.passportCountry" => "Transferor Passport Country"
  | "transferor.street1" => "Transferor Address Line 1"
  | "transferor.street2" => "Transferor Address Line 2"
  | "transferor.postcode" => "Transferor Postcode"
  | "transferor.city" => "Transferor City"
  | "transferor.state" => "Transferor State"
  | "transferor.country" => "Transferor Country"
  | "transferor.telNo" => "Transferor Phone"
  | "transferee.type" => "Transferee Type"
  | "transferee.name" => "Transferee Name"
  | "transferee.icNo" => "Transferee IC"
  | "transferee.rocNo" => "Transferee ROC"
  | "transferee.busType" => "Transferee Business Type"
  | "transferee.nationality" => "Transferee Nationality"
  | "transferee.passportNo" => "Transferee Passport"
  | "transferee.passportCountry" => "Transferee Passport Country"
  | "transferee.street1" => "Transferee Address Line 1"
  | "transferee.street2" => "Transferee Address Line 2"
  | "transferee.postcode" => "Transferee Postcode"
  | "transferee.city" => "Transferee City"
  | "transferee.state" => "Transferee State"
  | "transferee.country" => "Transferee Country"
  | "transferee.telNo" => "Transferee Phone"
  | "consideration" => "Consideration Amount"
  | "noOfCopy" => "Number of Copies"
  | "attachment" => "Attachment"
  | p => p

/-- Display names of validator variant 2. -/
def getFieldDisplayName_v2 (fieldPath : String) : String :=
  match fieldPath with
  | "refNo" => "Reference Number"
  | "instrumentDate" => "Date Signed"
  | "instrumentDateReceive" => "Date Received"
  | "principal" => "Principal"
  | "typeOfInstrument" => "Instrument Type"
  | "transferor.type" => "Transferor Type"
  | "transferor.name" => "Transferor Name"
  | "transferor.icNo" => "Transferor IC"
  | "transferor.rocNo" => "Transferor ROC"
  | "transferee.type" => "Transferee Type"
  | "transferee.name" => "Transferee Name"
  | "transferee.icNo" => "Transferee IC"
  | "transferee.rocNo" => "Transferee ROC"
  | "consideration" => "Consideration Amount"
  | "noOfCopy" => "Number of Copies"
  | "attachment" => "Attachment"
  | p => p

/-- Mandatory-field errors of one row, for a given field list and display
dictionary. -/
def mandatoryIssues (fields : List String) (displayName : String → String)
    (record : Record) (rowNumber : Nat) : List ValidationIssue :=
  fields.filterMap (fun fieldPath =>
    if isMissingValue (getNestedValue record fieldPath) then
      some { rowNumber := rowNumber
           , fieldName := fieldPath
           , errorType := "MISSING_FIELD"
           , message := "Missing required field: " ++ displayName fieldPath }
    else none)

/-- Conditional party errors of validator variant 1 (lines 122-234); the
transferor and transferee blocks are identical up to the party name. -/
def partyIssues_v1 (partyName : String) (party : Option Party) (rowNumber : Nat) :
    List ValidationIssue :=
  match party with
  | none => []
  | some t =>
    if t.type = .str ("1") ∨ t.type = .num 1 then
      (if ¬ t.rocNo.truthy then
        [{ rowNumber := rowNumber
         , fieldName := partyName ++ ".rocNo"
         , errorType := "MISSING_FIELD"
         , message := "Company " ++ partyName ++ " requires ROC Number" }]
       else []) ++
      (if ¬ t.busType.truthy then
        [{ rowNumber := rowNumber
         , fieldName := partyName ++ ".busType"
         , errorType := "MISSING_FIELD"
         , message := "Company " ++ partyName ++ " requires Business Type (1=Local, 2=Foreign)" }]
       else [])
    else if t.type = .str ("0") ∨ t.type = .num 0 then
      if ¬ t.icNo.truthy ∧ ¬ t.passportNo.truthy then
        [{ rowNumber := rowNumber
         , fieldName := partyName ++ ".icNo"
         , errorType := "MISSING_FIELD"
         , message := "Individual " ++ partyName ++ " requires IC Number (citizen) or Passport (non-citizen)" }]
      else if t.icNo.truthy then
        if ¬ t.nationality.truthy then
          [{ rowNumber := rowNumber
           , fieldName := partyName ++ ".nationality"
           , errorType := "MISSING_FIELD"
           , message := "Citizen " ++ partyName ++ " requires Nationality (set to 1)" }]
        else []
      else if t.passportNo.truthy then
        if ¬ t.passportCountry.truthy then
          [{ rowNumber := rowNumber
           , fieldName := partyName ++ ".passportCountry"
           , errorType := "MISSING_FIELD"
           , message := "Non-citizen " ++ partyName ++ " requires Passport Country Code" }]
        else []
      else []
    else []

/-- Conditional party warnings of validator variant 2 (lines 435-483); note
the individual case is tested first and uses the `pasportNo` spelling. -/
def partyIssues_v2 (partyName : String) (party : Option Party) (rowNumber : Nat) :
    List ValidationIssue :=
  match party with
  | none => []
  | some t =>
    if t.type = .str ("0") ∨ t.type = .num 0 then
      if ¬ t.icNo.truthy ∧ ¬ t.pasportNo.truthy then
        [{ rowNumber := rowNumber
         , fieldName := partyName ++ ".icNo"
         , errorType := "MISSING_ID"
         , message := "Individual " ++ partyName ++ " should have IC or Passport number" }]
      else []
    else if t.type = .str ("1") ∨ t.type = .num 1 then
      if ¬ t.rocNo.truthy then
        [{ rowNumber := rowNumber
         , fieldName := partyName ++ ".rocNo"
         , errorType := "MISSING_ID"
         , message := "Company " ++ partyName ++ " should have ROC number" }]
      else []
    else []

/-- Per-row validation of variant 1: `(rowErrors, rowWarnings)` in source
push order. -/
def validateRow_v1 (attachmentFiles : AttachmentFiles) (record : Record) :
    List ValidationIssue × List ValidationIssue :=
  let rowNumber := record.rowNumber
  let att := attachmentIssues attachmentFiles record rowNumber
  (mandatoryIssues MANDATORY_FIELDS_V1 getFieldDisplayName_v1 record rowNumber
     ++ dateIssues getFieldDisplayName_v1 record rowNumber
     ++ att.1
     ++ partyIssues_v1 ("transferor") record.transferor rowNumber
     ++ partyIssues_v1 ("transferee") record.transferee rowNumber,
   numericIssues getFieldDisplayName_v1 record rowNumber ++ att.2)

/-- Per-row validation of variant 2: `(rowErrors, rowWarnings)` in source
push order. -/
def validateRow_v2 (attachmentFiles : AttachmentFiles) (record : Record) :
    List ValidationIssue × List ValidationIssue :=
  let rowNumber := record.rowNumber
  let att := attachmentIssues attachmentFiles record rowNumber
  (mandatoryIssues MANDATORY_FIELDS_V2 getFieldDisplayName_v2 record rowNumber
     ++ dateIssues getFieldDisplayName_v2 record rowNumber
     ++ att.1,
   numericIssues getFieldDisplayName_v2 record rowNumber
     ++ att.2
     ++ partyIssues_v2 ("transferor") record.transferor rowNumber
     ++ partyIssues_v2 ("transferee") record.transferee rowNumber)

/-- Aggregate a list of per-row results into the validation report (the
accumulation loop shared by both `validateAll` variants). -/
def aggregateReport (rows : List (List ValidationIssue × List ValidationIssue)) :
    ValidationReport :=
  let errors := (rows.map Prod.fst).flatten
  let warnings := (rows.map Prod.snd).flatten
  { valid := errors.length == 0
  , validCount := (rows.filter (fun r => r.1.isEmpty)).length
  , errorCount := errors.length
  , warningCount := warnings.length
  , errors := errors
  , warnings := warnings }

/-- Validator variant 1 (validator module lines 50-253). -/
def validateAll_v1 (mappedData : List Record) (attachmentFiles : AttachmentFiles) :
    ValidationReport :=
  aggregateReport (mappedData.map (validateRow_v1 attachmentFiles))

/-- Validator variant 2 (validator module lines 363-502). -/
def validateAll_v2 (mappedData : List Record) (attachmentFiles : AttachmentFiles) :
    ValidationReport :=
  aggregateReport (mappedData.map (validateRow_v2 attachmentFiles))

/-! ## Concrete sample data used by the witness theorems -/

/-- A base64 resolver with no attachments. -/
def gNone : String → Option String := fun _ => none

/-- An attachment store containing no files. -/
def attEmpty : AttachmentFiles := some (fun _ => false)

/-- A one-record input (all fields unset). -/
def sampleInput1 : List Record := [{}]

/-- Placeholder default batch for positional access. -/
def dfltBatch : OutputBatch := { filename := "", content := "", size := 0, recordCount := 0 }

/-- The single batch generated from `sampleInput1`. -/
def sampleBatch1 : OutputBatch := (generateXml sampleInput1 gNone).getD 0 dfltBatch

/-- Record naming an attachment that no store contains. -/
def rec4 : Record := { attachment := .str ("missing.pdf") }

/-- Record with a company transferor and no ROC number. -/
def rec5 : Record := { transferor := some { type := .str ("1") } }

/-- Record with a malformed date value. -/
def rec6 : Record := { instrumentDate := .str ("2024-12-31") }

/-- Record whose attachment name is a single space. -/
def rec10 : Record := { attachment := .str (" ") }

/-! ## Byte-size accounting lemmas -/

theorem utf8Bytes_append (a b : String) : utf8Bytes (a ++ b) = utf8Bytes a + utf8Bytes b := by
  simp [utf8Bytes, String.data_append]

theorem utf8Bytes_foldl (l : List String) (a : String) :
    utf8Bytes (l.foldl (fun r s => r ++ s) a) = utf8Bytes a + (l.map utf8Bytes).sum := by
  induction l generalizing a with
  | nil => simp
  | cons x xs ih => simp [ih, utf8Bytes_append]; omega

theorem utf8Bytes_join (l : List String) :
    utf8Bytes (String.join l) = (l.map utf8Bytes).sum := by
  have h := utf8Bytes_foldl l ("")
  simpa [String.join, utf8Bytes] using h

theorem utf8Bytes_XML_HEADER : utf8Bytes XML_HEADER = XML_HEADER.length := by decide

theorem utf8Bytes_XML_FOOTER : utf8Bytes XML_FOOTER = XML_FOOTER.length := by decide

theorem finalizeBatch_size (batch : RunningBatch) (n : Nat)
    (h : batch.size = XML_HEADER.length + XML_FOOTER.length + (batch.instruments.map utf8Bytes).sum) :
    (finalizeBatch batch n).size = batch.size := by
  simp [finalizeBatch, utf8Bytes_append, utf8Bytes_join, utf8Bytes_XML_HEADER,
    utf8Bytes_XML_FOOTER, h]
  omega

theorem finalizeBatch_eq_chunk (batch : RunningBatch) (n : Nat)
    (h : batch.recordCount = batch.instruments.length) :
    finalizeBatch batch n = finalizeChunk batch.instruments n := by
  simp [finalizeBatch, finalizeChunk, h]

/-! ## Invariants of the serializer loop -/

theorem generateXmlLoop_good (f : Record → String) (rs : List Record) :
    ∀ (cur : RunningBatch) (batches : List OutputBatch),
      cur.recordCount = cur.instruments.length →
      cur.size = XML_HEADER.length + XML_FOOTER.length + (cur.instruments.map utf8Bytes).sum →
      (1 < cur.instruments.length → cur.size ≤ MAX_BATCH_SIZE) →
      (∀ b ∈ batches, 1 ≤ b.recordCount ∧ (1 < b.recordCount → b.size ≤ MAX_BATCH_SIZE)) →
      ∀ b ∈ generateXmlLoop f rs cur batches,
        1 ≤ b.recordCount ∧ (1 < b.recordCount → b.size ≤ MAX_BATCH_SIZE) := by
  induction rs with
  | nil =>
    intro cur batches h1 h2 h3 hb b hmem
    simp only [generateXmlLoop] at hmem
    by_cases hp : 0 < cur.instruments.length
    · rw [if_pos hp] at hmem
      rcases List.mem_append.mp hmem with hold | hnew
      · exact hb b hold
      · have hbe : b = finalizeBatch cur (batches.length + 1) := List.mem_singleton.mp hnew
        subst hbe
        refine ⟨?_, ?_⟩
        · simp [finalizeBatch]; omega
        · intro hgt
          have hsz := finalizeBatch_size cur (batches.length + 1) h2
          rw [hsz]
          apply h3
          simp [finalizeBatch] at hgt
          omega
    · rw [if_neg hp] at hmem
      exact hb b hmem
  | cons r rest ih =>
    intro cur batches h1 h2 h3 hb b hmem
    simp only [generateXmlLoop] at hmem
    by_cases hc : MAX_BATCH_SIZE < cur.size + utf8Bytes (f r) ∧ 0 < cur.instruments.length
    · rw [if_pos hc] at hmem
      refine ih _ _ ?_ ?_ ?_ ?_ b hmem
      · simp [emptyRunningBatch]
      · simp [emptyRunningBatch]
      · simp [emptyRunningBatch]
      · intro b' hb'
        rcases List.mem_append.mp hb' with hold | hnew
        · exact hb b' hold
        · have hbe : b' = finalizeBatch cur (batches.length + 1) := List.mem_singleton.mp hnew
          subst hbe
          refine ⟨?_, ?_⟩
          · simp [finalizeBatch]; omega
          · intro hgt
            have hsz := finalizeBatch_size cur (batches.length + 1) h2
            rw [hsz]
            apply h3
            simp [finalizeBatch] at hgt
            omega
    · rw [if_neg hc] at hmem
      refine ih _ _ ?_ ?_ ?_ hb b hmem
      · simp [h1]
      · simp [h2]; omega
      · intro hlen
        simp at hlen
        have hpos : 0 < cur.instruments.length := by omega
        have hnot : ¬ MAX_BATCH_SIZE < cur.size + utf8Bytes (f r) := by
          intro hlt; exact hc ⟨hlt, hpos⟩
        simp
        omega

theorem generateXmlLoop_chunks (f : Record → String) (rs : List Record) :
    ∀ (cur : RunningBatch) (batches : List OutputBatch),
      cur.recordCount = cur.instruments.length →
      ∃ chunks : List (List String),
        (∀ c ∈ chunks, c ≠ []) ∧
        chunks.flatten = cur.instruments ++ rs.map f ∧
        generateXmlLoop f rs cur batches = batches ++ finalizeChunks chunks (batches.length + 1) := by
  induction rs with
  | nil =>
    intro cur batches h1
    by_cases hp : 0 < cur.instruments.length
    · refine ⟨[cur.instruments], ?_, by simp, ?_⟩
      · intro c hc
        rw [List.mem_singleton.mp hc]
        exact List.ne_nil_of_length_pos hp
      · simp only [generateXmlLoop]
        rw [if_pos hp, finalizeBatch_eq_chunk cur (batches.length + 1) h1]
        simp [finalizeChunks]
    · have hnil : cur.instruments = [] := by
        simpa using List.length_eq_zero.mp (by omega)
      refine ⟨[], by simp, by simp [hnil], ?_⟩
      simp only [generateXmlLoop]
      rw [if_neg hp]
      simp [finalizeChunks]
  | cons r rest ih =>
    intro cur batches h1
    by_cases hc : MAX_BATCH_SIZE < cur.size + utf8Bytes (f r) ∧ 0 < cur.instruments.length
    · obtain ⟨chunks', hne, hflat, hout⟩ :=
        ih { instruments := emptyRunningBatch.instruments ++ [f r]
           , size := emptyRunningBatch.size + utf8Bytes (f r)
           , recordCount := emptyRunningBatch.recordCount + 1 }
          (batches ++ [finalizeBatch cur (batches.length + 1)])
          (by simp [emptyRunningBatch])
      refine ⟨cur.instruments :: chunks', ?_, ?_, ?_⟩
      · intro c hcm
        rcases List.mem_cons.mp hcm with hh | ht
        · rw [hh]; exact List.ne_nil_of_length_pos hc.2
        · exact hne c ht
      · simp only [List.flatten_cons, hflat]
        simp [emptyRunningBatch]
      · simp only [generateXmlLoop]
        rw [if_pos hc]
        rw [hout, finalizeBatch_eq_chunk cur (batches.length + 1) h1]
        simp [finalizeChunks, List.append_assoc]
    · obtain ⟨chunks', hne, hflat, hout⟩ :=
        ih { instruments := cur.instruments ++ [f r]
           , size := cur.size + utf8Bytes (f r)
           , recordCount := cur.recordCount + 1 }
          batches (by simp [h1])
      refine ⟨chunks', hne, ?_, ?_⟩
      · rw [hflat]; simp
      · simp only [generateXmlLoop]
        rw [if_neg hc]
        exact hout

theorem finalizeChunks_recordCount_sum (chunks : List (List String)) :
    ∀ start : Nat,
      ((finalizeChunks chunks start).map OutputBatch.recordCount).sum
        = (chunks.map List.length).sum := by
  induction chunks with
  | nil => intro start; simp [finalizeChunks]
  | cons c cs ih => intro start; simp [finalizeChunks, finalizeChunk, ih]

theorem finalizeChunks_getElem (chunks : List (List String)) :
    ∀ (start i : Nat) (b : OutputBatch),
      (finalizeChunks chunks start)[i]? = some b → b.filename = batchFilename (start + i) := by
  induction chunks with
  | nil => intro start i b h; simp [finalizeChunks] at h
  | cons c cs ih =>
    intro start i b h
    match i with
    | 0 =>
      simp [finalizeChunks] at h
      rw [← h]
      simp [finalizeChunk]
    | i + 1 =>
      simp only [finalizeChunks, List.getElem?_cons_succ] at h
      have := ih (start + 1) i b h
      rw [this]
      congr 1
      omega

theorem finalizeChunks_size_eq (chunks : List (List String)) :
    ∀ (start : Nat) (b : OutputBatch),
      b ∈ finalizeChunks chunks start → b.size = utf8Bytes b.content := by
  induction chunks with
  | nil => intro start b h; simp [finalizeChunks] at h
  | cons c cs ih =>
    intro start b h
    rcases List.mem_cons.mp h with hh | ht
    · rw [hh]; rfl
    · exact ih (start + 1) b ht

/-! ## Generator claims -/

/-- C1: every batch emitted by the serializer with more than one record has
byte size at most the 29 MiB maximum, and any batch exceeding the maximum
holds exactly one record (a single oversized record is placed in a batch by
itself, never split or dropped). -/
theorem claim1_batch_size_bound (mappedData : List Record) (g : String → Option String)
    (b : OutputBatch) (hb : b ∈ generateXml mappedData g) :
    (1 < b.recordCount → b.size ≤ MAX_BATCH_SIZE) ∧
    (MAX_BATCH_SIZE < b.size → b.recordCount = 1) := by
  have h := generateXmlLoop_good (fun record => generateInstrumentXml record g)
    mappedData emptyRunningBatch []
    (by simp [emptyRunningBatch]) (by simp [emptyRunningBatch]) (by simp [emptyRunningBatch])
    (by simp) b hb
  refine ⟨h.2, ?_⟩
  intro hgt
  by_contra hne
  have h2 : 1 < b.recordCount := by omega
  have := h.2 h2
  omega

/-- C2: the sum of `recordCount` over all emitted batches equals the number
of input records, and the emitted batches partition the instrument fragments
of the input, in input order, into non-empty consecutive chunks (no record
is reordered, duplicated, or dropped). -/
theorem claim2_record_preservation (mappedData : List Record) (g : String → Option String) :
    ((generateXml mappedData g).map OutputBatch.recordCount).sum = mappedData.length ∧
    ∃ chunks : List (List String),
      (∀ c ∈ chunks, c ≠ []) ∧
      chunks.flatten = mappedData.map (fun record => generateInstrumentXml record g) ∧
      generateXml mappedData g = finalizeChunks chunks 1 := by
  obtain ⟨chunks, hne, hflat, hout⟩ :=
    generateXmlLoop_chunks (fun record => generateInstrumentXml record g)
      mappedData emptyRunningBatch [] (by simp [emptyRunningBatch])
  have hflat' : chunks.flatten = mappedData.map (fun record => generateInstrumentXml record g) := by
    simpa [emptyRunningBatch] using hflat
  have hout' : generateXml mappedData g = finalizeChunks chunks 1 := by
    simpa [generateXml] using hout
  refine ⟨?_, chunks, hne, hflat', hout'⟩
  rw [hout', finalizeChunks_recordCount_sum chunks 1, ← List.length_flatten, hflat',
    List.length_map]

/-- C8: the first finalized batch is named `Output.xml` and the batch at
0-based position `i > 0` (1-based finalize order `i + 1`) is named
`Output_Batch_<i+1>.xml`. -/
theorem claim8_batch_naming (mappedData : List Record) (g : String → Option String)
    (i : Nat) (b : OutputBatch) (h : (generateXml mappedData g)[i]? = some b) :
    b.filename = if i = 0 then "Output.xml"
      else "Output_Batch_" ++ toString (i + 1) ++ ".xml" := by
  obtain ⟨chunks, hne, hflat, hout⟩ :=
    generateXmlLoop_chunks (fun record => generateInstrumentXml record g)
      mappedData emptyRunningBatch [] (by simp [emptyRunningBatch])
  have hout' : generateXml mappedData g = finalizeChunks chunks 1 := by
    simpa [generateXml] using hout
  rw [hout'] at h
  have hname := finalizeChunks_getElem chunks 1 i b h
  match i with
  | 0 => rw [hname]; simp [batchFilename]
  | i + 1 =>
    have he : 1 + (i + 1) = i + 1 + 1 := by omega
    rw [hname, he]
    simp only [batchFilename]
    rw [if_neg (by omega), if_neg (by omega)]

/-- C9: every emitted batch's reported `size` equals the UTF-8 byte length
of its finalized `content` (it is recomputed from the content at
finalization). -/
theorem claim9_size_is_content_bytes (mappedData : List Record) (g : String → Option String)
    (b : OutputBatch) (hb : b ∈ generateXml mappedData g) :
    b.size = utf8Bytes b.content := by
  obtain ⟨chunks, hne, hflat, hout⟩ :=
    generateXmlLoop_chunks (fun record => generateInstrumentXml record g)
      mappedData emptyRunningBatch [] (by simp [emptyRunningBatch])
  have hout' : generateXml mappedData g = finalizeChunks chunks 1 := by
    simpa [generateXml] using hout
  rw [hout'] at hb
  exact finalizeChunks_size_eq chunks 1 b hb

/-! ## Concrete-sample lemmas feeding the generator witnesses -/

theorem sampleLen1 : (generateXml sampleInput1 gNone).length = 1 := by
  simp [generateXml, sampleInput1, generateXmlLoop, emptyRunningBatch]

theorem sampleGet1 : (generateXml sampleInput1 gNone)[0]? = some sampleBatch1 := by
  have h : 0 < (generateXml sampleInput1 gNone).length := by rw [sampleLen1]; omega
  have hd : sampleBatch1 = ((generateXml sampleInput1 gNone)[0]?).getD dfltBatch :=
    List.getD_eq_getElem?_getD _ _ _
  rw [hd, List.getElem?_eq_getElem h]
  simp

theorem sampleBatch1_mem : sampleBatch1 ∈ generateXml sampleInput1 gNone := by
  have h : 0 < (generateXml sampleInput1 gNone).length := by rw [sampleLen1]; omega
  have hg := sampleGet1
  rw [List.getElem?_eq_getElem h] at hg
  have hb : sampleBatch1 = (generateXml sampleInput1 gNone)[0] := (Option.some.inj hg).symm
  rw [hb]
  exact List.getElem_mem h

/-- C1 witness: the size bound instantiated on a concrete generated batch. -/
theorem claim1_batch_size_bound_witness :
    sampleBatch1 ∈ generateXml sampleInput1 gNone ∧
    (1 < sampleBatch1.recordCount → sampleBatch1.size ≤ MAX_BATCH_SIZE) ∧
    (MAX_BATCH_SIZE < sampleBatch1.size → sampleBatch1.recordCount = 1) :=
  ⟨sampleBatch1_mem,
   (claim1_batch_size_bound sampleInput1 gNone sampleBatch1 sampleBatch1_mem).1,
   (claim1_batch_size_bound sampleInput1 gNone sampleBatch1 sampleBatch1_mem).2⟩

/-- C8 witness: the first concrete generated batch is named `Output.xml`. -/
theorem claim8_batch_naming_witness :
    (generateXml sampleInput1 gNone)[0]? = some sampleBatch1 ∧
    sampleBatch1.filename = "Output.xml" :=
  ⟨sampleGet1, by
    have h := claim8_batch_naming sampleInput1 gNone 0 sampleBatch1 sampleGet1
    simpa using h⟩

/-- C9 witness: the size/content relation on a concrete generated batch. -/
theorem claim9_size_is_content_bytes_witness :
    sampleBatch1 ∈ generateXml sampleInput1 gNone ∧
    sampleBatch1.size = utf8Bytes sampleBatch1.content :=
  ⟨sampleBatch1_mem,
   claim9_size_is_content_bytes sampleInput1 gNone sampleBatch1 sampleBatch1_mem⟩

/-! ## XML escaping round-trip -/


theorem replaceAllChar_append (p : Char) (t : List Char) (l1 l2 : List Char) :
    replaceAllChar p t (l1 ++ l2) = replaceAllChar p t l1 ++ replaceAllChar p t l2 := by
  induction l1 with
  | nil => simp [replaceAllChar]
  | cons c cs ih => simp [replaceAllChar, ih]

theorem escapeList_append (l1 l2 : List Char) :
    escapeList (l1 ++ l2) = escapeList l1 ++ escapeList l2 := by
  simp [escapeList, replaceAllChar_append]

theorem escapeList_cons (c : Char) (t : List Char) :
    escapeList (c :: t) = escapeList [c] ++ escapeList t := by
  have h : c :: t = [c] ++ t := rfl
  rw [h, escapeList_append]

theorem escapeList_amp : escapeList ['&'] = ("&amp;").data := by rfl

theorem escapeList_lt : escapeList ['<'] = ("&lt;").data := by rfl

theorem escapeList_gt : escapeList ['>'] = ("&gt;").data := by rfl

theorem escapeList_quot : escapeList ['"'] = ("&quot;").data := by rfl

theorem escapeList_apos : escapeList [aposChar] = ("&apos;").data := by rfl

theorem escapeList_plain (c : Char) (h1 : ¬ c = '&') (h2 : ¬ c = '<') (h3 : ¬ c = '>')
    (h4 : ¬ c = '"') (h5 : ¬ c = aposChar) : escapeList [c] = [c] := by
  simp [escapeList, replaceAllChar, h1, h2, h3, h4, h5]

theorem unescape_plain_cons (c : Char) (h : ¬ c = '&') (t : List Char) :
    unescapeChars (c :: t) = c :: unescapeChars t := by
  rw [unescapeChars.eq_def]
  split
  · rename_i heq
    exact absurd heq (List.cons_ne_nil c t)
  · rename_i c2 cs2 heq
    injection heq with hc hcs
    subst hc
    subst hcs
    rw [if_neg h]

theorem unescape_escapeList (cs : List Char) : unescapeChars (escapeList cs) = cs := by
  induction cs with
  | nil => rfl
  | cons c t ih =>
    rw [escapeList_cons]
    by_cases h1 : c = '&'
    · subst h1
      rw [escapeList_amp]
      show '&' :: unescapeChars (escapeList t) = '&' :: t
      exact congrArg (List.cons '&') ih
    · by_cases h2 : c = '<'
      · subst h2
        rw [escapeList_lt]
        show '<' :: unescapeChars (escapeList t) = '<' :: t
        exact congrArg (List.cons '<') ih
      · by_cases h3 : c = '>'
        · subst h3
          rw [escapeList_gt]
          show '>' :: unescapeChars (escapeList t) = '>' :: t
          exact congrArg (List.cons '>') ih
        · by_cases h4 : c = '"'
          · subst h4
            rw [escapeList_quot]
            show '"' :: unescapeChars (escapeList t) = '"' :: t
            exact congrArg (List.cons '"') ih
          · by_cases h5 : c = aposChar
            · subst h5
              rw [escapeList_apos]
              show aposChar :: unescapeChars (escapeList t) = aposChar :: t
              exact congrArg (List.cons aposChar) ih
            · rw [escapeList_plain c h1 h2 h3 h4 h5]
              show unescapeChars (c :: escapeList t) = c :: t
              rw [unescape_plain_cons c h1]
              exact congrArg (List.cons c) ih

/-- C7: escaping any string value and then applying standard XML unescaping
recovers the string exactly, and escaping `null`/`undefined` yields the
empty string, never the literal text "null" or "undefined". -/
theorem claim7_escape_roundtrip (s : String) :
    unescapeXml (escapeXml (.str s)) = s ∧
    escapeXml .null = "" ∧ escapeXml .undefined = "" := by
  refine ⟨?_, rfl, rfl⟩
  show String.mk (unescapeChars (escapeList s.data)) = s
  rw [unescape_escapeList]


end Stamps
namespace Stamps

theorem mem_if_singleton {c : Prop} [Decidable c] {a i : ValidationIssue}
    (h : i ∈ (if c then [a] else ([] : List ValidationIssue))) : i = a := by
  split at h
  · exact List.mem_singleton.mp h
  · exact absurd h (List.not_mem_nil i)

theorem aggregateReport_valid_iff (rows : List (List ValidationIssue × List ValidationIssue)) :
    ((aggregateReport rows).valid = true) ↔ (aggregateReport rows).errors = [] := by
  simp only [aggregateReport, beq_iff_eq, List.length_eq_zero]

theorem aggregateReport_count_iff (rows : List (List ValidationIssue × List ValidationIssue)) :
    (aggregateReport rows).errorCount = 0 ↔ (aggregateReport rows).validCount = rows.length := by
  simp only [aggregateReport]
  induction rows with
  | nil => simp
  | cons r t ih =>
    have hle := List.length_filter_le (fun r => r.1.isEmpty) t
    by_cases he : r.1.isEmpty = true
    · have h0 : r.1.length = 0 := by simp [List.isEmpty_iff.mp he]
      simp only [List.map_cons, List.flatten_cons, List.length_append, List.filter_cons,
        he, if_pos, List.length_cons]
      omega
    · have hne : r.1 ≠ [] := by
        intro hnil
        exact he (List.isEmpty_iff.mpr hnil)
      have h0 : 0 < r.1.length := List.length_pos.mpr hne
      simp only [List.map_cons, List.flatten_cons, List.length_append, List.filter_cons,
        if_neg he, List.length_cons]
      omega

theorem aggregateReport_mem_errors (rows : List (List ValidationIssue × List ValidationIssue))
    (r : List ValidationIssue × List ValidationIssue) (hr : r ∈ rows)
    (i : ValidationIssue) (hi : i ∈ r.1) : i ∈ (aggregateReport rows).errors := by
  simp only [aggregateReport]
  rw [List.mem_flatten]
  exact ⟨r.1, List.mem_map.mpr ⟨r, hr, rfl⟩, hi⟩

theorem aggregateReport_mem_warnings (rows : List (List ValidationIssue × List ValidationIssue))
    (r : List ValidationIssue × List ValidationIssue) (hr : r ∈ rows)
    (i : ValidationIssue) (hi : i ∈ r.2) : i ∈ (aggregateReport rows).warnings := by
  simp only [aggregateReport]
  rw [List.mem_flatten]
  exact ⟨r.2, List.mem_map.mpr ⟨r, hr, rfl⟩, hi⟩

theorem mandatoryIssues_errorType (fs : List String) (dn : String → String)
    (record : Record) (n : Nat) :
    ∀ i ∈ mandatoryIssues fs dn record n, i.errorType = "MISSING_FIELD" := by
  intro i hi
  simp only [mandatoryIssues, List.mem_filterMap] at hi
  obtain ⟨a, _, hfa⟩ := hi
  split at hfa
  · cases hfa; rfl
  · cases hfa

theorem dateIssues_errorType (dn : String → String) (record : Record) (n : Nat) :
    ∀ i ∈ dateIssues dn record n, i.errorType = "INVALID_DATE" := by
  intro i hi
  simp only [dateIssues, List.mem_filterMap] at hi
  obtain ⟨a, _, hfa⟩ := hi
  split at hfa
  · cases hfa; rfl
  · cases hfa

theorem numericIssues_errorType (dn : String → String) (record : Record) (n : Nat) :
    ∀ i ∈ numericIssues dn record n, i.errorType = "INVALID_NUMBER" := by
  intro i hi
  simp only [numericIssues, List.mem_filterMap] at hi
  obtain ⟨a, _, hfa⟩ := hi
  split at hfa
  · cases hfa; rfl
  · cases hfa

theorem attachmentIssues_fst_errorType (att : AttachmentFiles) (record : Record) (n : Nat) :
    ∀ i ∈ (attachmentIssues att record n).1, i.errorType = "MISSING_FILE" := by
  intro i hi
  simp only [attachmentIssues] at hi
  split at hi
  · split at hi
    · exact absurd hi (List.not_mem_nil i)
    · rw [List.mem_singleton.mp hi]
  · exact absurd hi (List.not_mem_nil i)

theorem attachmentIssues_snd_errorType (att : AttachmentFiles) (record : Record) (n : Nat) :
    ∀ i ∈ (attachmentIssues att record n).2, i.errorType = "MISSING_ATTACHMENT" := by
  intro i hi
  simp only [attachmentIssues] at hi
  split at hi
  · split at hi
    · exact absurd hi (List.not_mem_nil i)
    · exact absurd hi (List.not_mem_nil i)
  · rw [List.mem_singleton.mp hi]

theorem partyIssues_v1_errorType (nm : String) (p : Option Party) (n : Nat) :
    ∀ i ∈ partyIssues_v1 nm p n, i.errorType = "MISSING_FIELD" := by
  intro i hi
  cases p with
  | none => simp [partyIssues_v1] at hi
  | some t =>
    simp only [partyIssues_v1] at hi
    split at hi
    · rcases List.mem_append.mp hi with h | h
      · rw [mem_if_singleton h]
      · rw [mem_if_singleton h]
    · split at hi
      · split at hi
        · rw [List.mem_singleton.mp hi]
        · split at hi
          · rw [mem_if_singleton hi]
          · split at hi
            · rw [mem_if_singleton hi]
            · exact absurd hi (List.not_mem_nil i)
      · exact absurd hi (List.not_mem_nil i)

theorem partyIssues_v2_errorType (nm : String) (p : Option Party) (n : Nat) :
    ∀ i ∈ partyIssues_v2 nm p n, i.errorType = "MISSING_ID" := by
  intro i hi
  cases p with
  | none => simp [partyIssues_v2] at hi
  | some t =>
    simp only [partyIssues_v2] at hi
    split at hi
    · split at hi
      · rw [List.mem_singleton.mp hi]
      · exact absurd hi (List.not_mem_nil i)
    · split at hi
      · split at hi
        · rw [List.mem_singleton.mp hi]
        · exact absurd hi (List.not_mem_nil i)
      · exact absurd hi (List.not_mem_nil i)

end Stamps
namespace Stamps

/-- C3: for both validator variants, the report's `valid` flag is true iff
its error list is empty, and `errorCount = 0` iff `validCount` equals the
number of input records (a record is valid exactly when it produced zero
errors; warnings never affect validity). -/
theorem claim3_report_consistency (mappedData : List Record) (att : AttachmentFiles) :
    ((validateAll_v1 mappedData att).valid = true ↔ (validateAll_v1 mappedData att).errors = []) ∧
    ((validateAll_v1 mappedData att).errorCount = 0 ↔
      (validateAll_v1 mappedData att).validCount = mappedData.length) ∧
    ((validateAll_v2 mappedData att).valid = true ↔ (validateAll_v2 mappedData att).errors = []) ∧
    ((validateAll_v2 mappedData att).errorCount = 0 ↔
      (validateAll_v2 mappedData att).validCount = mappedData.length) := by
  refine ⟨aggregateReport_valid_iff _, ?_, aggregateReport_valid_iff _, ?_⟩
  · have h := aggregateReport_count_iff (mappedData.map (validateRow_v1 att))
    rwa [List.length_map] at h
  · have h := aggregateReport_count_iff (mappedData.map (validateRow_v2 att))
    rwa [List.length_map] at h

theorem truthy_false_of_missing (v : JSVal)
    (h : v = .undefined ∨ v = .null ∨ v = .str ("")) : v.truthy = false := by
  rcases h with h | h | h <;> subst h <;> rfl

/-- C5: a record whose transferor is a company (type `'1'` or `1`) with an
absent or empty `rocNo` always makes the report of either validator variant
contain a `MISSING_FIELD` or `MISSING_ID` issue for `transferor.rocNo`
(variant 1 files it among the errors, variant 2 among the warnings). -/
theorem claim5_company_rocno (mappedData : List Record) (att : AttachmentFiles)
    (record : Record) (p : Party)
    (hmem : record ∈ mappedData)
    (htor : record.transferor = some p)
    (htype : p.type = .str ("1") ∨ p.type = .num 1)
    (hroc : p.rocNo = .undefined ∨ p.rocNo = .null ∨ p.rocNo = .str ("")) :
    (∃ i, i ∈ (validateAll_v1 mappedData att).errors ++ (validateAll_v1 mappedData att).warnings ∧
      i.fieldName = "transferor.rocNo" ∧
      (i.errorType = "MISSING_FIELD" ∨ i.errorType = "MISSING_ID")) ∧
    (∃ i, i ∈ (validateAll_v2 mappedData att).errors ++ (validateAll_v2 mappedData att).warnings ∧
      i.fieldName = "transferor.rocNo" ∧
      (i.errorType = "MISSING_FIELD" ∨ i.errorType = "MISSING_ID")) := by
  have hfalse : p.rocNo.truthy = false := truthy_false_of_missing p.rocNo hroc
  have htypene : ¬ (p.type = .str ("0") ∨ p.type = .num 0) := by
    rcases htype with h | h <;> rw [h] <;> rintro (h2 | h2) <;> simp at h2
  constructor
  · refine ⟨{ rowNumber := record.rowNumber
            , fieldName := "transferor" ++ ".rocNo"
            , errorType := "MISSING_FIELD"
            , message := "Company " ++ "transferor" ++ " requires ROC Number" }, ?_, by simp, Or.inl rfl⟩
    apply List.mem_append.mpr
    left
    apply aggregateReport_mem_errors _ (validateRow_v1 att record)
      (List.mem_map.mpr ⟨record, hmem, rfl⟩)
    show _ ∈ (validateRow_v1 att record).1
    simp only [validateRow_v1]
    apply List.mem_append.mpr; left
    apply List.mem_append.mpr; right
    simp only [partyIssues_v1, htor]
    rw [if_pos htype]
    apply List.mem_append.mpr; left
    rw [if_pos (by simp [hfalse])]
    exact List.mem_singleton.mpr rfl
  · refine ⟨{ rowNumber := record.rowNumber
            , fieldName := "transferor" ++ ".rocNo"
            , errorType := "MISSING_ID"
            , message := "Company " ++ "transferor" ++ " should have ROC number" }, ?_, by simp, Or.inr rfl⟩
    apply List.mem_append.mpr
    right
    apply aggregateReport_mem_warnings _ (validateRow_v2 att record)
      (List.mem_map.mpr ⟨record, hmem, rfl⟩)
    show _ ∈ (validateRow_v2 att record).2
    simp only [validateRow_v2]
    apply List.mem_append.mpr; left
    apply List.mem_append.mpr; right
    simp only [partyIssues_v2, htor]
    rw [if_neg htypene, if_pos htype, if_pos (by simp [hfalse])]
    exact List.mem_singleton.mpr rfl

end Stamps
namespace Stamps

theorem jsOr_str_empty (s : String) : jsOr (.str s) (.str ("")) = JSVal.str s := by
  by_cases h : s = ""
  · subst h; rfl
  · simp [jsOr, JSVal.truthy, h]

theorem attachmentIssues_snd_empty_of_truthy (att : AttachmentFiles) (record : Record) (n : Nat)
    (h : record.attachment.truthy = true) : (attachmentIssues att record n).2 = [] := by
  simp only [attachmentIssues, if_pos h]
  split <;> rfl

theorem validateRow_v1_error_types (att : AttachmentFiles) (record : Record) :
    ∀ i ∈ (validateRow_v1 att record).1,
      i.errorType = "MISSING_FIELD" ∨ i.errorType = "INVALID_DATE" ∨ i.errorType = "MISSING_FILE" := by
  intro i hi
  simp only [validateRow_v1] at hi
  rcases List.mem_append.mp hi with h | h
  · rcases List.mem_append.mp h with h | h
    · rcases List.mem_append.mp h with h | h
      · rcases List.mem_append.mp h with h | h
        · exact Or.inl (mandatoryIssues_errorType _ _ _ _ i h)
        · exact Or.inr (Or.inl (dateIssues_errorType _ _ _ i h))
      · exact Or.inr (Or.inr (attachmentIssues_fst_errorType _ _ _ i h))
    · exact Or.inl (partyIssues_v1_errorType _ _ _ i h)
  · exact Or.inl (partyIssues_v1_errorType _ _ _ i h)

theorem validateRow_v2_error_types (att : AttachmentFiles) (record : Record) :
    ∀ i ∈ (validateRow_v2 att record).1,
      i.errorType = "MISSING_FIELD" ∨ i.errorType = "INVALID_DATE" ∨ i.errorType = "MISSING_FILE" := by
  intro i hi
  simp only [validateRow_v2] at hi
  rcases List.mem_append.mp hi with h | h
  · rcases List.mem_append.mp h with h | h
    · exact Or.inl (mandatoryIssues_errorType _ _ _ _ i h)
    · exact Or.inr (Or.inl (dateIssues_errorType _ _ _ i h))
  · exact Or.inr (Or.inr (attachmentIssues_fst_errorType _ _ _ i h))

theorem validateRow_v1_warning_types (att : AttachmentFiles) (record : Record) :
    ∀ i ∈ (validateRow_v1 att record).2,
      i.errorType = "INVALID_NUMBER" ∨ i.errorType = "MISSING_ATTACHMENT" := by
  intro i hi
  simp only [validateRow_v1] at hi
  rcases List.mem_append.mp hi with h | h
  · exact Or.inl (numericIssues_errorType _ _ _ i h)
  · exact Or.inr (attachmentIssues_snd_errorType _ _ _ i h)

theorem validateRow_v2_warning_types (att : AttachmentFiles) (record : Record) :
    ∀ i ∈ (validateRow_v2 att record).2,
      i.errorType = "INVALID_NUMBER" ∨ i.errorType = "MISSING_ATTACHMENT"
        ∨ i.errorType = "MISSING_ID" := by
  intro i hi
  simp only [validateRow_v2] at hi
  rcases List.mem_append.mp hi with h | h
  · rcases List.mem_append.mp h with h | h
    · rcases List.mem_append.mp h with h | h
      · exact Or.inl (numericIssues_errorType _ _ _ i h)
      · exact Or.inr (Or.inl (attachmentIssues_snd_errorType _ _ _ i h))
    · exact Or.inr (Or.inr (partyIssues_v2_errorType _ _ _ i h))
  · exact Or.inr (Or.inr (partyIssues_v2_errorType _ _ _ i h))

theorem validateAll_single_errors (att : AttachmentFiles) (record : Record) :
    (validateAll_v1 [record] att).errors = (validateRow_v1 att record).1 ∧
    (validateAll_v1 [record] att).warnings = (validateRow_v1 att record).2 ∧
    (validateAll_v2 [record] att).errors = (validateRow_v2 att record).1 ∧
    (validateAll_v2 [record] att).warnings = (validateRow_v2 att record).2 := by
  refine ⟨?_, ?_, ?_, ?_⟩ <;> simp [validateAll_v1, validateAll_v2, aggregateReport]

theorem missingFile_mem_row_v1 (att : AttachmentFiles) (record : Record) (s : String)
    (ha : record.attachment = .str s) (hs : s ≠ "")
    (hmiss : attHas att (jsTrim s) = false) :
    { rowNumber := record.rowNumber
    , fieldName := "attachment"
    , errorType := "MISSING_FILE"
    , message := "Attachment file not uploaded: " ++ jsTrim s
    : ValidationIssue } ∈ (validateRow_v1 att record).1 := by
  simp only [validateRow_v1]
  apply List.mem_append.mpr; left
  apply List.mem_append.mpr; left
  apply List.mem_append.mpr; right
  simp only [attachmentIssues, ha, jsToString]
  rw [if_pos (by simp [JSVal.truthy, hs]), if_neg (by simp [hmiss])]
  exact List.mem_singleton.mpr rfl

theorem missingFile_mem_row_v2 (att : AttachmentFiles) (record : Record) (s : String)
    (ha : record.attachment = .str s) (hs : s ≠ "")
    (hmiss : attHas att (jsTrim s) = false) :
    { rowNumber := record.rowNumber
    , fieldName := "attachment"
    , errorType := "MISSING_FILE"
    , message := "Attachment file not uploaded: " ++ jsTrim s
    : ValidationIssue } ∈ (validateRow_v2 att record).1 := by
  simp only [validateRow_v2]
  apply List.mem_append.mpr; right
  simp only [attachmentIssues, ha, jsToString]
  rw [if_pos (by simp [JSVal.truthy, hs]), if_neg (by simp [hmiss])]
  exact List.mem_singleton.mpr rfl

/-- C4: a record naming an attachment absent from the store yields a
`MISSING_FILE` error for its row; a record naming no attachment yields a
`MISSING_ATTACHMENT` issue among the warnings only (no error ever carries
that type); and serialization still succeeds for a record whose attachment
cannot be resolved, rendering an empty attachment body in the instrument
template. -/
theorem claim4_attachment_handling (record : Record) (att : AttachmentFiles)
    (g : String → Option String) (s : String) :
    (record.attachment = .str s → s ≠ "" → attHas att (jsTrim s) = false →
      ∃ i, i ∈ (validateAll_v1 [record] att).errors ∧ i.rowNumber = record.rowNumber ∧
        i.fieldName = "attachment" ∧ i.errorType = "MISSING_FILE") ∧
    (record.attachment.truthy = false →
      (∃ i, i ∈ (validateAll_v1 [record] att).warnings ∧ i.rowNumber = record.rowNumber ∧
        i.fieldName = "attachment" ∧ i.errorType = "MISSING_ATTACHMENT") ∧
      (∀ i, i ∈ (validateAll_v1 [record] att).errors → i.errorType ≠ "MISSING_ATTACHMENT")) ∧
    (record.attachment = .str s → g (jsTrim s) = none →
      generateInstrumentXml record g = instrumentTemplate record (JSVal.str s) "") := by
  obtain ⟨he1, hw1, he2, hw2⟩ := validateAll_single_errors att record
  refine ⟨?_, ?_, ?_⟩
  · intro ha hs hmiss
    refine ⟨{ rowNumber := record.rowNumber
            , fieldName := "attachment"
            , errorType := "MISSING_FILE"
            , message := "Attachment file not uploaded: " ++ jsTrim s }, ?_, rfl, rfl, rfl⟩
    rw [he1]
    exact missingFile_mem_row_v1 att record s ha hs hmiss
  · intro hfalse
    constructor
    · refine ⟨{ rowNumber := record.rowNumber
              , fieldName := "attachment"
              , errorType := "MISSING_ATTACHMENT"
              , message := "No attachment specified for this record" }, ?_, rfl, rfl, rfl⟩
      rw [hw1]
      simp only [validateRow_v1]
      apply List.mem_append.mpr; right
      simp only [attachmentIssues]
      rw [if_neg (by simp [hfalse])]
      exact List.mem_singleton.mpr rfl
    · intro i hi
      rw [he1] at hi
      rcases validateRow_v1_error_types att record i hi with h | h | h <;> simp [h]
  · intro ha hg
    have hname : jsOr record.attachment (JSVal.str ("")) = JSVal.str s := by
      rw [ha]; exact jsOr_str_empty s
    have hb64 : attachmentBase64Of record g = "" := by
      simp only [attachmentBase64Of, hname, jsToString]
      split
      · rw [hg]
      · rfl
    simp only [generateInstrumentXml, hname, hb64]

theorem missingAtt_not_in_warnings_v1 (att : AttachmentFiles) (record : Record)
    (h : record.attachment.truthy = true) :
    ∀ i ∈ (validateRow_v1 att record).2, i.errorType ≠ "MISSING_ATTACHMENT" := by
  intro i hi
  simp only [validateRow_v1, attachmentIssues_snd_empty_of_truthy att record record.rowNumber h,
    List.append_nil] at hi
  have := numericIssues_errorType getFieldDisplayName_v1 record record.rowNumber i hi
  simp [this]

theorem missingAtt_not_in_warnings_v2 (att : AttachmentFiles) (record : Record)
    (h : record.attachment.truthy = true) :
    ∀ i ∈ (validateRow_v2 att record).2, i.errorType ≠ "MISSING_ATTACHMENT" := by
  intro i hi
  simp only [validateRow_v2, attachmentIssues_snd_empty_of_truthy att record record.rowNumber h,
    List.append_nil] at hi
  rcases List.mem_append.mp hi with hm | hm
  · rcases List.mem_append.mp hm with hm2 | hm2
    · have := numericIssues_errorType getFieldDisplayName_v2 record record.rowNumber i hm2
      simp [this]
    · have := partyIssues_v2_errorType ("transferor") record.transferor record.rowNumber i hm2
      simp [this]
  · have := partyIssues_v2_errorType ("transferee") record.transferee record.rowNumber i hm
    simp [this]

/-- C10: a record whose attachment name is a non-empty all-whitespace
string, checked against a store lacking the empty-string key, produces a
`MISSING_FILE` error (not a `MISSING_ATTACHMENT` warning) for that row in
both validator variants, because the named-test uses the untrimmed value
while the store lookup uses the trimmed (empty) filename. -/
theorem claim10_whitespace_attachment (record : Record) (att : AttachmentFiles) (s : String)
    (ha : record.attachment = .str s) (hne : s ≠ "") (htrim : jsTrim s = "")
    (hkey : attHas att ("") = false) :
    (∃ i, i ∈ (validateAll_v1 [record] att).errors ∧ i.rowNumber = record.rowNumber ∧
      i.fieldName = "attachment" ∧ i.errorType = "MISSING_FILE") ∧
    (∀ i, i ∈ (validateAll_v1 [record] att).warnings → i.errorType ≠ "MISSING_ATTACHMENT") ∧
    (∃ i, i ∈ (validateAll_v2 [record] att).errors ∧ i.rowNumber = record.rowNumber ∧
      i.fieldName = "attachment" ∧ i.errorType = "MISSING_FILE") ∧
    (∀ i, i ∈ (validateAll_v2 [record] att).warnings → i.errorType ≠ "MISSING_ATTACHMENT") := by
  obtain ⟨he1, hw1, he2, hw2⟩ := validateAll_single_errors att record
  have hmiss : attHas att (jsTrim s) = false := by rw [htrim]; exact hkey
  have htr : record.attachment.truthy = true := by simp [ha, JSVal.truthy, hne]
  refine ⟨⟨{ rowNumber := record.rowNumber
           , fieldName := "attachment"
           , errorType := "MISSING_FILE"
           , message := "Attachment file not uploaded: " ++ jsTrim s }, ?_, rfl, rfl, rfl⟩, ?_,
          ⟨{ rowNumber := record.rowNumber
           , fieldName := "attachment"
           , errorType := "MISSING_FILE"
           , message := "Attachment file not uploaded: " ++ jsTrim s }, ?_, rfl, rfl, rfl⟩, ?_⟩
  · rw [he1]; exact missingFile_mem_row_v1 att record s ha hne hmiss
  · intro i hi; rw [hw1] at hi; exact missingAtt_not_in_warnings_v1 att record htr i hi
  · rw [he2]; exact missingFile_mem_row_v2 att record s ha hne hmiss
  · intro i hi; rw [hw2] at hi; exact missingAtt_not_in_warnings_v2 att record htr i hi

end Stamps
namespace Stamps

theorem row_v1_filter_date (att : AttachmentFiles) (record : Record) (fld : String) :
    (validateRow_v1 att record).1.filter
        (fun i => i.fieldName == fld && i.errorType == "INVALID_DATE")
      = (dateIssues getFieldDisplayName_v1 record record.rowNumber).filter
          (fun i => i.fieldName == fld && i.errorType == "INVALID_DATE") := by
  have hnil : ∀ (l : List ValidationIssue),
      (∀ i ∈ l, i.errorType ≠ "INVALID_DATE") →
      l.filter (fun i => i.fieldName == fld && i.errorType == "INVALID_DATE") = [] := by
    intro l hl
    apply List.filter_eq_nil_iff.mpr
    intro i hi
    have h := hl i hi
    simp only [Bool.and_eq_true, beq_iff_eq, not_and]
    intro _
    simpa using h
  simp only [validateRow_v1, List.filter_append]
  rw [hnil (mandatoryIssues MANDATORY_FIELDS_V1 getFieldDisplayName_v1 record record.rowNumber)
        (fun i hi => by simp [mandatoryIssues_errorType _ _ _ _ i hi]),
    hnil (attachmentIssues att record record.rowNumber).1
        (fun i hi => by simp [attachmentIssues_fst_errorType _ _ _ i hi]),
    hnil (partyIssues_v1 ("transferor") record.transferor record.rowNumber)
        (fun i hi => by simp [partyIssues_v1_errorType _ _ _ i hi]),
    hnil (partyIssues_v1 ("transferee") record.transferee record.rowNumber)
        (fun i hi => by simp [partyIssues_v1_errorType _ _ _ i hi])]
  simp

theorem dateCount_instrumentDate_v1 (att : AttachmentFiles) (record : Record) :
    ((validateAll_v1 [record] att).errors.filter
        (fun i => i.fieldName == "instrumentDate" && i.errorType == "INVALID_DATE")).length
      = if record.instrumentDate.truthy = true ∧
           dateRegexTest (jsToString record.instrumentDate) = false then 1 else 0 := by
  obtain ⟨he1, _, _, _⟩ := validateAll_single_errors att record
  rw [he1, row_v1_filter_date]
  have e1 : (("instrumentDate" : String) == "instrumentDate") = true := by decide
  have e2 : (("instrumentDateReceive" : String) == "instrumentDate") = false := by decide
  have e3 : (("INVALID_DATE" : String) == "INVALID_DATE") = true := by decide
  by_cases h1 : record.instrumentDate.truthy = true ∧
      dateRegexTest (jsToString record.instrumentDate) = false
  · by_cases h2 : record.instrumentDateReceive.truthy = true ∧
        dateRegexTest (jsToString record.instrumentDateReceive) = false
    · simp [dateIssues, h1, h2, List.filter, e1, e2, e3]
    · simp [dateIssues, h1, h2, List.filter, e1, e2, e3]
  · by_cases h2 : record.instrumentDateReceive.truthy = true ∧
        dateRegexTest (jsToString record.instrumentDateReceive) = false
    · simp [dateIssues, h1, h2, List.filter, e1, e2, e3]
    · simp [dateIssues, h1, h2, List.filter, e1, e2, e3]

theorem dateCount_instrumentDateReceive_v1 (att : AttachmentFiles) (record : Record) :
    ((validateAll_v1 [record] att).errors.filter
        (fun i => i.fieldName == "instrumentDateReceive" && i.errorType == "INVALID_DATE")).length
      = if record.instrumentDateReceive.truthy = true ∧
           dateRegexTest (jsToString record.instrumentDateReceive) = false then 1 else 0 := by
  obtain ⟨he1, _, _, _⟩ := validateAll_single_errors att record
  rw [he1, row_v1_filter_date]
  have e1 : (("instrumentDate" : String) == "instrumentDateReceive") = false := by decide
  have e2 : (("instrumentDateReceive" : String) == "instrumentDateReceive") = true := by decide
  have e3 : (("INVALID_DATE" : String) == "INVALID_DATE") = true := by decide
  by_cases h1 : record.instrumentDate.truthy = true ∧
      dateRegexTest (jsToString record.instrumentDate) = false
  · by_cases h2 : record.instrumentDateReceive.truthy = true ∧
        dateRegexTest (jsToString record.instrumentDateReceive) = false
    · simp [dateIssues, h1, h2, List.filter, e1, e2, e3]
    · simp [dateIssues, h1, h2, List.filter, e1, e2, e3]
  · by_cases h2 : record.instrumentDateReceive.truthy = true ∧
        dateRegexTest (jsToString record.instrumentDateReceive) = false
    · simp [dateIssues, h1, h2, List.filter, e1, e2, e3]
    · simp [dateIssues, h1, h2, List.filter, e1, e2, e3]

/-- C6: for each of the two date fields, a non-empty string value matching
the `DD/MM/YYYY` pattern never produces an `INVALID_DATE` error, any other
non-empty string value produces exactly one `INVALID_DATE` error for that
field, and absent or empty values produce none. -/
theorem claim6_date_format (record : Record) (att : AttachmentFiles) (s : String) :
    (record.instrumentDate = .str s →
      ((validateAll_v1 [record] att).errors.filter
          (fun i => i.fieldName == "instrumentDate" && i.errorType == "INVALID_DATE")).length
        = if s ≠ "" ∧ dateRegexTest s = false then 1 else 0) ∧
    (record.instrumentDateReceive = .str s →
      ((validateAll_v1 [record] att).errors.filter
          (fun i => i.fieldName == "instrumentDateReceive" && i.errorType == "INVALID_DATE")).length
        = if s ≠ "" ∧ dateRegexTest s = false then 1 else 0) ∧
    ((record.instrumentDate = .undefined ∨ record.instrumentDate = .null) →
      ((validateAll_v1 [record] att).errors.filter
          (fun i => i.fieldName == "instrumentDate" && i.errorType == "INVALID_DATE")).length = 0) ∧
    ((record.instrumentDateReceive = .undefined ∨ record.instrumentDateReceive = .null) →
      ((validateAll_v1 [record] att).errors.filter
          (fun i => i.fieldName == "instrumentDateReceive" && i.errorType == "INVALID_DATE")).length
        = 0) := by
  refine ⟨?_, ?_, ?_, ?_⟩
  · intro hd
    rw [dateCount_instrumentDate_v1, hd]
    by_cases hb : s ≠ "" ∧ dateRegexTest s = false
    · rw [if_pos hb, if_pos (by
        refine ⟨by simp [JSVal.truthy, hb.1], ?_⟩
        simp only [jsToString]
        exact hb.2)]
    · rw [if_neg hb, if_neg (by
        intro hc
        apply hb
        refine ⟨?_, ?_⟩
        · intro h0
          rw [h0] at hc
          simp [JSVal.truthy] at hc
        · have h2 := hc.2
          simpa only [jsToString] using h2)]
  · intro hd
    rw [dateCount_instrumentDateReceive_v1, hd]
    by_cases hb : s ≠ "" ∧ dateRegexTest s = false
    · rw [if_pos hb, if_pos (by
        refine ⟨by simp [JSVal.truthy, hb.1], ?_⟩
        simp only [jsToString]
        exact hb.2)]
    · rw [if_neg hb, if_neg (by
        intro hc
        apply hb
        refine ⟨?_, ?_⟩
        · intro h0
          rw [h0] at hc
          simp [JSVal.truthy] at hc
        · have h2 := hc.2
          simpa only [jsToString] using h2)]
  · intro hd
    rw [dateCount_instrumentDate_v1]
    rcases hd with hd | hd <;> rw [hd] <;> simp [JSVal.truthy]
  · intro hd
    rw [dateCount_instrumentDateReceive_v1]
    rcases hd with hd | hd <;> rw [hd] <;> simp [JSVal.truthy]

end Stamps
namespace Stamps

/-- C5 witness: a concrete company transferor without ROC number. -/
theorem claim5_company_rocno_witness :
    rec5 ∈ [rec5] ∧ rec5.transferor = some { type := JSVal.str ("1") } ∧
    ((∃ i, i ∈ (validateAll_v1 [rec5] attEmpty).errors ++ (validateAll_v1 [rec5] attEmpty).warnings ∧
        i.fieldName = "transferor.rocNo" ∧
        (i.errorType = "MISSING_FIELD" ∨ i.errorType = "MISSING_ID")) ∧
     (∃ i, i ∈ (validateAll_v2 [rec5] attEmpty).errors ++ (validateAll_v2 [rec5] attEmpty).warnings ∧
        i.fieldName = "transferor.rocNo" ∧
        (i.errorType = "MISSING_FIELD" ∨ i.errorType = "MISSING_ID"))) :=
  ⟨List.mem_singleton.mpr rfl, rfl,
   claim5_company_rocno [rec5] attEmpty rec5 { type := JSVal.str ("1") }
     (List.mem_singleton.mpr rfl) rfl (Or.inl rfl) (Or.inl rfl)⟩

/-- C4 witness: a concrete record naming `missing.pdf` against an empty
store and resolver. -/
theorem claim4_attachment_handling_witness :
    rec4.attachment = JSVal.str ("missing.pdf") ∧
    attHas attEmpty (jsTrim ("missing.pdf")) = false ∧
    (∃ i, i ∈ (validateAll_v1 [rec4] attEmpty).errors ∧ i.rowNumber = rec4.rowNumber ∧
       i.fieldName = "attachment" ∧ i.errorType = "MISSING_FILE") ∧
    generateInstrumentXml rec4 gNone = instrumentTemplate rec4 (JSVal.str ("missing.pdf")) ("") :=
  ⟨rfl, rfl,
   (claim4_attachment_handling rec4 attEmpty gNone ("missing.pdf")).1 rfl (by decide) rfl,
   (claim4_attachment_handling rec4 attEmpty gNone ("missing.pdf")).2.2 rfl rfl⟩

/-- C6 witness: a concrete malformed date produces exactly one
`INVALID_DATE` error. -/
theorem claim6_date_format_witness :
    rec6.instrumentDate = JSVal.str ("2024-12-31") ∧
    ((validateAll_v1 [rec6] attEmpty).errors.filter
        (fun i => i.fieldName == "instrumentDate" && i.errorType == "INVALID_DATE")).length = 1 :=
  ⟨rfl, ((claim6_date_format rec6 attEmpty ("2024-12-31")).1 rfl).trans (by decide)⟩

/-- C10 witness: a concrete all-whitespace attachment name. -/
theorem claim10_whitespace_attachment_witness :
    rec10.attachment = JSVal.str (" ") ∧ jsTrim (" ") = "" ∧
    ((∃ i, i ∈ (validateAll_v1 [rec10] attEmpty).errors ∧ i.rowNumber = rec10.rowNumber ∧
        i.fieldName = "attachment" ∧ i.errorType = "MISSING_FILE") ∧
     (∀ i, i ∈ (validateAll_v1 [rec10] attEmpty).warnings → i.errorType ≠ "MISSING_ATTACHMENT") ∧
     (∃ i, i ∈ (validateAll_v2 [rec10] attEmpty).errors ∧ i.rowNumber = rec10.rowNumber ∧
        i.fieldName = "attachment" ∧ i.errorType = "MISSING_FILE") ∧
     (∀ i, i ∈ (validateAll_v2 [rec10] attEmpty).warnings → i.errorType ≠ "MISSING_ATTACHMENT")) :=
  ⟨rfl, by decide,
   claim10_whitespace_attachment rec10 attEmpty (" ") rfl (by decide) (by decide) rfl⟩

end Stamps
